import Mathlib

/-!
Verification of the terminalcp CLI layer.

This file shallowly embeds the CLI argument parser (`src/cli-parser.ts`)
and the client entry-point dispatch (`src/index.ts`) of the terminalcp
repository, and proves properties of them.  JavaScript numbers produced
by `parseInt` are modelled as either an integer or NaN; JavaScript
string truthiness (`!s` is true exactly on the empty string and on
`undefined`) is modelled explicitly.
-/

namespace Terminalcp

/-- Result of JavaScript `parseInt`: either NaN or an integer. -/
inductive JSNum where
  | nan : JSNum
  | num : Int → JSNum
deriving DecidableEq

/-- JavaScript `isNaN` on a `parseInt` result. -/
def JSNum.isNaN : JSNum → Bool
  | .nan => true
  | .num _ => false

/-- Whitespace characters skipped by JavaScript `parseInt` (the common
ASCII subset; the full JS set also has exotic Unicode spaces that never
occur in the strings this development evaluates). -/
def isJsSpace (c : Char) : Bool :=
  c = ' ' || c = '\t' || c = '\n' || c = '\r'

/-- Decimal digit value of a character, `none` if not a digit. -/
def digitVal (c : Char) : Option Nat :=
  if '0' ≤ c ∧ c ≤ '9' then some (c.toNat - '0'.toNat) else none

/-- Hexadecimal digit value of a character, `none` if not a hex digit. -/
def hexVal (c : Char) : Option Nat :=
  if '0' ≤ c ∧ c ≤ '9' then some (c.toNat - '0'.toNat)
  else if 'a' ≤ c ∧ c ≤ 'f' then some (c.toNat - 'a'.toNat + 10)
  else if 'A' ≤ c ∧ c ≤ 'F' then some (c.toNat - 'A'.toNat + 10)
  else none

/-- Reads the longest digit prefix under digit-valuation `dv` in base
`base`, accumulating into `acc`; `none` means no digit was read. -/
def parseDigits (dv : Char → Option Nat) (base : Nat) : List Char → Option Nat → Option Nat
  | [], acc => acc
  | c :: cs, acc =>
    match dv c with
    | some d => parseDigits dv base cs (some (acc.getD 0 * base + d))
    | none => acc

/-- JavaScript `parseInt(s)` with the default radix: skip leading
whitespace, read an optional sign, then either a `0x`-prefixed
hexadecimal or a decimal digit prefix; NaN when no digit is found. -/
def parseIntJs (s : String) : JSNum :=
  let cs := s.data.dropWhile isJsSpace
  let signAndRest : Int × List Char :=
    match cs with
    | '-' :: rest => (-1, rest)
    | '+' :: rest => (1, rest)
    | _ => (1, cs)
  let digits : Option Nat :=
    match signAndRest.2 with
    | '0' :: 'x' :: rest => parseDigits hexVal 16 rest none
    | '0' :: 'X' :: rest => parseDigits hexVal 16 rest none
    | other => parseDigits digitVal 10 other none
  match digits with
  | none => .nan
  | some n => .num (signAndRest.1 * n)

/-- Value stored under a key of a parsed command's `args` record:
a string, a number, `undefined`, or a list of strings. -/
inductive ArgVal where
  | str : String → ArgVal
  | num : JSNum → ArgVal
  | undef : ArgVal
  | strs : List String → ArgVal
deriving DecidableEq

/-- Value stored under a key of a parsed command's `flags` record. -/
inductive FlagVal where
  | str : String → FlagVal
  | bool : Bool → FlagVal
deriving DecidableEq

/-- The `ParsedCommand` interface of `cli-parser.ts`: a command name
plus `args` and `flags` records, modelled as association lists. -/
structure ParsedCommand where
  command : String
  args : List (String × ArgVal)
  flags : List (String × FlagVal)
deriving DecidableEq

/-- The `ParseError` interface of `cli-parser.ts`: an error message and
optional usage text. -/
structure ParseError where
  error : String
  usage : Option String := none
deriving DecidableEq

/-- `ParseResult = ParsedCommand | ParseError`. -/
inductive ParseResult where
  | cmd : ParsedCommand → ParseResult
  | err : ParseError → ParseResult
deriving DecidableEq

/-- The `isError` type guard of `cli-parser.ts` (tests presence of the
`error` key, which exactly distinguishes the two shapes). -/
def isError : ParseResult → Bool
  | .err _ => true
  | .cmd _ => false

/-- JavaScript falsiness of a string: only the empty string is falsy. -/
def strFalsy (s : String) : Bool := s = ""

/-- JavaScript falsiness of a possibly-undefined string: `undefined`
and the empty string are falsy. -/
def optFalsy : Option String → Bool
  | none => true
  | some s => strFalsy s

/-- JavaScript `cond ? { cwd } : {}` on a possibly-undefined string:
keeps the value only when it is truthy. -/
def truthyOpt : Option String → Option String
  | none => none
  | some s => if s = "" then none else some s

/-- Lookup of an `args` key in a parsed command. -/
def ParsedCommand.argOf (p : ParsedCommand) (k : String) : Option ArgVal :=
  p.args.lookup k

/-- Lookup of a `flags` key in a parsed command. -/
def ParsedCommand.flagOf (p : ParsedCommand) (k : String) : Option FlagVal :=
  p.flags.lookup k

/-- Whether a flag key is present in a parsed command. -/
def ParsedCommand.hasFlag (p : ParsedCommand) (k : String) : Bool :=
  (p.flags.lookup k).isSome

/-- An `args` string value of a parsed command, `none` if absent or not
a string. -/
def ParsedCommand.argStrOf (p : ParsedCommand) (k : String) : Option String :=
  match p.args.lookup k with
  | some (.str s) => some s
  | _ => none

/-- A `flags` string value of a parsed command, `none` if absent or not
a string. -/
def ParsedCommand.flagStrOf (p : ParsedCommand) (k : String) : Option String :=
  match p.flags.lookup k with
  | some (.str s) => some s
  | _ => none

/-- Usage line of the `start` command. -/
def startUsage : String :=
  "terminalcp start <session-id> <command> [args...] [--cwd <directory>]"

/-- Outcome of the argument scan loop shared by `parseStartCommand` and
the `start` branch of `index.ts`: either the accumulated
sessionId/cwd/command-words state, or the missing `--cwd` value error. -/
inductive StartScan where
  | ok : Option String → Option String → List String → StartScan
  | cwdErr : StartScan
deriving DecidableEq

/-- The `for` loop of `parseStartCommand` (`cli-parser.ts` lines
75-91): walks the arguments; `--cwd` consumes the following argument as
the working directory (error if there is none); otherwise the argument
becomes the session id if that is still falsy, else a command word. -/
def startLoop : List String → Option String → Option String → List String → StartScan
  | [], sessionId, cwd, acc => .ok sessionId cwd acc
  | a :: rest, sessionId, cwd, acc =>
    if a = "--cwd" then
      match rest with
      | [] => .cwdErr
      | v :: rest2 => startLoop rest2 sessionId (some v) acc
    else if optFalsy sessionId then startLoop rest (some a) cwd acc
    else startLoop rest sessionId cwd (acc ++ [a])

/-- `parseStartCommand` of `cli-parser.ts`. -/
def parseStartCommand (args : List String) : ParseResult :=
  if args.length < 2 then
    .err { error := "start command requires session-id and command", usage := some startUsage }
  else
    match startLoop args none none [] with
    | .cwdErr => .err { error := "--cwd requires a directory path", usage := some startUsage }
    | .ok sessionId cwd commandArgs =>
      if optFalsy sessionId || commandArgs.isEmpty then
        .err { error := "Missing required arguments", usage := some startUsage }
      else
        .cmd { command := "start",
               args := [("sessionId", .str (sessionId.getD "")),
                        ("command", .str (String.intercalate " " commandArgs))],
               flags := match truthyOpt cwd with
                        | some c => [("cwd", .str c)]
                        | none => [] }

/-- `parseStopCommand` of `cli-parser.ts`: the session id is optional
(`undefined` when absent). -/
def parseStopCommand (args : List String) : ParseResult :=
  .cmd { command := "stop",
         args := [("sessionId", match args.head? with
                                | some s => .str s
                                | none => .undef)],
         flags := [] }

/-- `parseAttachCommand` of `cli-parser.ts`. -/
def parseAttachCommand (args : List String) : ParseResult :=
  match args with
  | [] => .err { error := "attach command requires session-id", usage := some "terminalcp attach <id>" }
  | sessionId :: _ =>
    .cmd { command := "attach", args := [("sessionId", .str sessionId)], flags := [] }

/-- `parseStdoutCommand` of `cli-parser.ts`: the optional `lines`
argument is `parseInt`-converted when truthy, `undefined` otherwise. -/
def parseStdoutCommand (args : List String) : ParseResult :=
  match args with
  | [] => .err { error := "stdout command requires session-id", usage := some "terminalcp stdout <id> [lines]" }
  | sessionId :: rest =>
    .cmd { command := "stdout",
           args := [("sessionId", .str sessionId),
                    ("lines", match rest.head? with
                              | some s => if s = "" then .undef else .num (parseIntJs s)
                              | none => .undef)],
           flags := [] }

/-- JavaScript object-key assignment on a flags record: overwrite the
existing entry or append a new one. -/
def setFlag : List (String × FlagVal) → String → FlagVal → List (String × FlagVal)
  | [], k, v => [(k, v)]
  | (k0, v0) :: rest, k, v =>
    if k0 = k then (k0, v) :: rest else (k0, v0) :: setFlag rest k v

/-- The flag loop of `parseStreamCommand` (`cli-parser.ts` lines
164-170), scanning the arguments after the session id. -/
def streamFlagLoop : List String → List (String × FlagVal) → List (String × FlagVal)
  | [], flags => flags
  | a :: rest, flags =>
    if a = "--since-last" then streamFlagLoop rest (setFlag flags "sinceLast" (.bool true))
    else if a = "--with-ansi" then streamFlagLoop rest (setFlag flags "withAnsi" (.bool true))
    else streamFlagLoop rest flags

/-- `parseStreamCommand` of `cli-parser.ts`. -/
def parseStreamCommand (args : List String) : ParseResult :=
  match args with
  | [] => .err { error := "stream command requires session-id",
                 usage := some "terminalcp stream <id> [--since-last] [--with-ansi]" }
  | sessionId :: rest =>
    .cmd { command := "stream",
           args := [("sessionId", .str sessionId)],
           flags := streamFlagLoop rest [] }

/-- `parseStdinCommand` of `cli-parser.ts`. -/
def parseStdinCommand (args : List String) : ParseResult :=
  match args with
  | sessionId :: d :: rest =>
    .cmd { command := "stdin",
           args := [("sessionId", .str sessionId), ("data", .strs (d :: rest))],
           flags := [] }
  | _ => .err { error := "stdin command requires session-id and data",
                usage := some "terminalcp stdin <id> <text> [text] ..." }

/-- Usage line of the `resize` command. -/
def resizeUsage : String := "terminalcp resize <id> <cols> <rows>"

/-- `parseResizeCommand` of `cli-parser.ts`: requires three arguments;
cols and rows are rejected exactly when `parseInt` yields NaN. -/
def parseResizeCommand (args : List String) : ParseResult :=
  match args with
  | a0 :: a1 :: a2 :: _ =>
    let cols := parseIntJs a1
    let rows := parseIntJs a2
    if cols.isNaN || rows.isNaN then
      .err { error := "cols and rows must be numbers", usage := some resizeUsage }
    else
      .cmd { command := "resize",
             args := [("sessionId", .str a0), ("cols", .num cols), ("rows", .num rows)],
             flags := [] }
  | _ => .err { error := "resize command requires session-id, cols, and rows",
                usage := some resizeUsage }

/-- `parseTermSizeCommand` of `cli-parser.ts`. -/
def parseTermSizeCommand (args : List String) : ParseResult :=
  match args with
  | [] => .err { error := "term-size command requires session-id", usage := some "terminalcp term-size <id>" }
  | sessionId :: _ =>
    .cmd { command := "term-size", args := [("sessionId", .str sessionId)], flags := [] }

/-- The `switch (commandName)` of `parseArgs` in `cli-parser.ts`. -/
def dispatchCommand (commandName : String) (rest : List String) : ParseResult :=
  if commandName = "start" then parseStartCommand rest
    else if commandName = "stop" then parseStopCommand rest
    else if commandName = "list" ∨ commandName = "ls" then
      .cmd { command := "list", args := [], flags := [] }
    else if commandName = "attach" then parseAttachCommand rest
    else if commandName = "stdout" then parseStdoutCommand rest
    else if commandName = "stream" then parseStreamCommand rest
    else if commandName = "stdin" then parseStdinCommand rest
    else if commandName = "resize" then parseResizeCommand rest
    else if commandName = "term-size" then parseTermSizeCommand rest
    else if commandName = "version" then
      .cmd { command := "version", args := [], flags := [] }
    else if commandName = "kill-server" then
      .cmd { command := "kill-server", args := [], flags := [] }
    else if commandName = "--mcp" then
      .cmd { command := "mcp", args := [], flags := [] }
    else if commandName = "--server" then
      .cmd { command := "server", args := [], flags := [] }
    else
      .err { error := "Unknown command: " ++ commandName,
             usage := some "Run 'terminalcp' without arguments to see help" }

/-- `parseArgs` of `cli-parser.ts`: error on an empty vector, else
dispatch on the first argument. -/
def parseArgs (args : List String) : ParseResult :=
  match args with
  | [] => .err { error := "No command provided" }
  | commandName :: rest => dispatchCommand commandName rest

/-! ## The client entry point (`src/index.ts`)

`index.ts` parses `process.argv` inline (it does not call `parseArgs`)
and sends one request to the daemon over the `TerminalClient`.  The
daemon, the socket transport and the `TerminalClient` class are not
part of the sources under verification, so the outcome of the one
awaited operation of each branch is a parameter (`ReqOutcome`): the
resolved payload or the rejection message of the promise.  A missing
daemon is the rejection whose message is `"No server running"`, the
literal `index.ts` itself compares against.  `process.exit` codes,
`console` output and the single request object are recorded in a
`ClientRun`. -/

/-- Modelled from the spec: the translated result of the key/token
translator (`key-parser.ts`, not under the verified sources), which
expands textual tokens such as a named Enter key into literal bytes.
No claim inspects the translated bytes, so the translation is kept
abstract: a `KeyData` is identified by the token list it was produced
from. -/
structure KeyData where
  tokens : List String
deriving DecidableEq

/-- Modelled from the spec: `parseKeyInput` of `key-parser.ts`. -/
def parseKeyInput (tokens : List String) : KeyData := ⟨tokens⟩

/-- A request object sent by the client: an action tag plus the
action-specific fields present in `messages.ts` request shapes.  Fields
a given action does not set are `none`. -/
structure Request where
  action : String
  id : Option String := none
  name : Option String := none
  command : Option String := none
  cwd : Option String := none
  lines : Option JSNum := none
  cols : Option JSNum := none
  rows : Option JSNum := none
  data : Option KeyData := none
  since_last : Option Bool := none
  strip_ansi : Option Bool := none
deriving DecidableEq

/-- Outcome of the one awaited operation of a client branch: the
resolved string payload, or the rejection's error message. -/
inductive ReqOutcome where
  | ok : String → ReqOutcome
  | fail : String → ReqOutcome
deriving DecidableEq

/-- The rejection message `index.ts` compares against when no daemon is
listening (also printed by the `kill-server` socket-existence check). -/
def noServerMsg : String := "No server running"

/-- The request outcome when no daemon/server is reachable. -/
def noServer : ReqOutcome := .fail noServerMsg

/-- Client version string read from `package.json` (external to the
verified sources; no claim inspects its value). -/
def clientVersion : String := "1.0.0"

/-- Observable result of one client invocation: the request sent to the
daemon (if any), the `process.exit` code (if the branch exits), and the
console output. -/
structure ClientRun where
  request : Option Request := none
  exitCode : Option Nat := none
  stdoutLines : List String := []
  stderrLines : List String := []
deriving DecidableEq

/-- First line of the help text printed on an empty argument vector
(the remainder of the block is elided; no claim inspects it). -/
def helpText : String := "terminalcp - Terminal Control Protocol"

/-- Rendering of one `list` response line (`index.ts` lines 113-120):
the line is split on spaces into id, status, cwd and command words;
fields absent from the line interpolate as `undefined`. -/
def renderListLine (line : String) : List String :=
  let parts := line.splitOn " "
  let part : Nat → String := fun i => (parts.get? i).getD "undefined"
  ["  " ++ part 0,
   "    Status: " ++ part 1,
   "    CWD: " ++ part 2,
   "    Command: " ++ String.intercalate " " (parts.drop 3),
   ""]

/-- The `ls`/`list` branch of `index.ts`: an empty (or all-blank)
response, or a rejection with the no-server message, prints
`No active sessions` and exits 0; any other rejection exits 1. -/
def listRun (o : ReqOutcome) : ClientRun :=
  let req : Request := { action := "list" }
  match o with
  | .ok payload =>
    let lines := (payload.splitOn "\n").filter (fun l => l.trim ≠ "")
    if lines.isEmpty then
      { request := some req, exitCode := some 0, stdoutLines := ["No active sessions"] }
    else
      { request := some req, exitCode := some 0, stdoutLines := lines.flatMap renderListLine }
  | .fail m =>
    if m = noServerMsg then
      { request := some req, exitCode := some 0, stdoutLines := ["No active sessions"] }
    else
      { request := some req, exitCode := some 1, stderrLines := [m] }

/-- The `for` loop of the `start` branch of `index.ts` (lines 141-155);
textually the same loop as `parseStartCommand`'s. -/
def clientStartLoop : List String → Option String → Option String → List String → StartScan
  | [], sessionId, cwd, acc => .ok sessionId cwd acc
  | a :: rest, sessionId, cwd, acc =>
    if a = "--cwd" then
      match rest with
      | [] => .cwdErr
      | v :: rest2 => clientStartLoop rest2 sessionId (some v) acc
    else if optFalsy sessionId then clientStartLoop rest (some a) cwd acc
    else clientStartLoop rest sessionId cwd (acc ++ [a])

/-- The `start` branch of `index.ts`: re-parses the remaining
arguments, errors out before any request on bad input, otherwise sends
`{action: "start", command, name, cwd?}`. -/
def startRun (args : List String) (o : ReqOutcome) : ClientRun :=
  match clientStartLoop (args.drop 1) none none [] with
  | .cwdErr =>
    { exitCode := some 1, stderrLines := ["Error: --cwd requires a directory path"] }
  | .ok sessionId cwd commandArgs =>
    if optFalsy sessionId || commandArgs.isEmpty then
      { exitCode := some 1, stderrLines := ["Usage: " ++ startUsage] }
    else
      let req : Request := { action := "start",
                             command := some (String.intercalate " " commandArgs),
                             name := sessionId,
                             cwd := truthyOpt cwd }
      match o with
      | .ok idPayload =>
        { request := some req, exitCode := some 0, stdoutLines := ["Started session: " ++ idPayload] }
      | .fail m =>
        { request := some req, exitCode := some 1, stderrLines := ["Failed to start session: " ++ m] }

/-- The `stop` branch of `index.ts`: the session id is optional. -/
def stopRun (args : List String) (o : ReqOutcome) : ClientRun :=
  let req : Request := { action := "stop", id := args.get? 1 }
  match o with
  | .ok payload => { request := some req, exitCode := some 0, stdoutLines := [payload] }
  | .fail m => { request := some req, exitCode := some 1, stderrLines := ["Failed to stop session: " ++ m] }

/-- The `stdout` branch of `index.ts`: requires a truthy session id;
the optional line count is `parseInt`-converted when truthy. -/
def stdoutRun (args : List String) (o : ReqOutcome) : ClientRun :=
  match args.get? 1 with
  | none => { exitCode := some 1, stderrLines := ["Usage: terminalcp stdout <id> [lines]"] }
  | some sid =>
    if sid = "" then { exitCode := some 1, stderrLines := ["Usage: terminalcp stdout <id> [lines]"] }
    else
      let lines : Option JSNum :=
        match args.get? 2 with
        | some s => if s = "" then none else some (parseIntJs s)
        | none => none
      let req : Request := { action := "stdout", id := some sid, lines := lines }
      match o with
      | .ok payload => { request := some req, exitCode := some 0, stdoutLines := [payload] }
      | .fail m => { request := some req, exitCode := some 1, stderrLines := ["Failed to get stdout: " ++ m] }

/-- The `stream` branch of `index.ts`: requires a truthy session id;
`since_last` and `strip_ansi` are computed by `args.includes` over the
whole argument vector. -/
def streamRun (args : List String) (o : ReqOutcome) : ClientRun :=
  match args.get? 1 with
  | none => { exitCode := some 1, stderrLines := ["Usage: terminalcp stream <id> [--since-last] [--with-ansi]"] }
  | some sid =>
    if sid = "" then { exitCode := some 1, stderrLines := ["Usage: terminalcp stream <id> [--since-last] [--with-ansi]"] }
    else
      let req : Request := { action := "stream", id := some sid,
                             since_last := some (args.contains "--since-last"),
                             strip_ansi := some (!args.contains "--with-ansi") }
      match o with
      | .ok payload => { request := some req, exitCode := some 0, stdoutLines := [payload] }
      | .fail m => { request := some req, exitCode := some 1, stderrLines := ["Failed to get stream: " ++ m] }

/-- The `stdin` branch of `index.ts`: requires a session id and at
least one data token; the tokens pass through the key translator. -/
def stdinRun (args : List String) (o : ReqOutcome) : ClientRun :=
  if args.length < 3 then
    { exitCode := some 1, stderrLines := ["Usage: terminalcp stdin <id> <text> [text] ..."] }
  else
    let req : Request := { action := "stdin", id := args.get? 1,
                           data := some (parseKeyInput (args.drop 2)) }
    match o with
    | .ok _ => { request := some req, exitCode := some 0 }
    | .fail m => { request := some req, exitCode := some 1, stderrLines := ["Failed to send stdin: " ++ m] }

/-- The `term-size` branch of `index.ts`. -/
def termSizeRun (args : List String) (o : ReqOutcome) : ClientRun :=
  match args.get? 1 with
  | none => { exitCode := some 1, stderrLines := ["Usage: terminalcp term-size <id>"] }
  | some sid =>
    if sid = "" then { exitCode := some 1, stderrLines := ["Usage: terminalcp term-size <id>"] }
    else
      let req : Request := { action := "term-size", id := some sid }
      match o with
      | .ok payload => { request := some req, exitCode := some 0, stdoutLines := [payload] }
      | .fail m => { request := some req, exitCode := some 1, stderrLines := ["Failed to get terminal size: " ++ m] }

/-- The `resize` branch of `index.ts`: requires four arguments and
sends `parseInt` of cols and rows unvalidated (NaN included). -/
def resizeRun (args : List String) (o : ReqOutcome) : ClientRun :=
  match args with
  | _ :: a1 :: a2 :: a3 :: _ =>
    let req : Request := { action := "resize", id := some a1,
                           cols := some (parseIntJs a2), rows := some (parseIntJs a3) }
    match o with
    | .ok _ => { request := some req, exitCode := some 0, stdoutLines := ["Terminal resized"] }
    | .fail m => { request := some req, exitCode := some 1, stderrLines := ["Failed to resize terminal: " ++ m] }
  | _ => { exitCode := some 1, stderrLines := ["Usage: terminalcp resize <id> <cols> <rows>"] }

/-- The `attach` branch of `index.ts`: requires a truthy session id;
on success the process stays attached (no exit recorded here), on
rejection it exits 1. -/
def attachRun (args : List String) (o : ReqOutcome) : ClientRun :=
  match args.get? 1 with
  | none => { exitCode := some 1, stderrLines := ["Usage: terminalcp attach <id>"] }
  | some sid =>
    if sid = "" then { exitCode := some 1, stderrLines := ["Usage: terminalcp attach <id>"] }
    else
      let req : Request := { action := "attach", id := some sid }
      match o with
      | .ok _ => { request := some req }
      | .fail m => { request := some req, exitCode := some 1, stderrLines := [m] }

/-- The `version` branch of `index.ts`. -/
def versionRun (o : ReqOutcome) : ClientRun :=
  let req : Request := { action := "version" }
  match o with
  | .ok v =>
    { request := some req, exitCode := some 0,
      stdoutLines := ["Server version: " ++ v, "Client version: " ++ clientVersion] }
  | .fail m =>
    { request := some req, exitCode := some 1,
      stdoutLines := ["Client version: " ++ clientVersion],
      stderrLines := ["Failed to get server version: " ++ m] }

/-- The `kill-server` branch of `index.ts`: checks the socket file
first and exits 1 without a request when it is absent. -/
def killServerRun (socketExists : Bool) (o : ReqOutcome) : ClientRun :=
  if !socketExists then
    { exitCode := some 1, stderrLines := [noServerMsg] }
  else
    let req : Request := { action := "kill-server" }
    match o with
    | .ok _ => { request := some req, exitCode := some 0, stdoutLines := ["Server killed"] }
    | .fail m => { request := some req, exitCode := some 1, stderrLines := ["Failed to kill server: " ++ m] }

/-- The `--server` branch of `index.ts`: the daemon keeps running on
success and exits 1 when startup fails. -/
def serverRun (o : ReqOutcome) : ClientRun :=
  match o with
  | .ok _ => {}
  | .fail m => { exitCode := some 1, stderrLines := ["Failed to start server: " ++ m] }

/-- The `--mcp` branch of `index.ts`: the MCP server keeps running on
success and exits 1 on a fatal error. -/
def mcpRun (o : ReqOutcome) : ClientRun :=
  match o with
  | .ok _ => {}
  | .fail m => { exitCode := some 1, stderrLines := ["Fatal error: " ++ m] }

/-- The full dispatch of `index.ts` on the argument vector: help on an
empty vector, then the branch chain in source order, the unknown
command error last.  `socketExists` models the `fs.existsSync` check of
the `kill-server` branch; `o` is the outcome of the branch's awaited
operation. -/
def clientRun (socketExists : Bool) (args : List String) (o : ReqOutcome) : ClientRun :=
  match args with
  | [] => { exitCode := some 0, stdoutLines := [helpText] }
  | a0 :: _ =>
    if a0 = "--mcp" then mcpRun o
    else if a0 = "ls" ∨ a0 = "list" then listRun o
    else if a0 = "start" then startRun args o
    else if a0 = "stop" then stopRun args o
    else if a0 = "stdout" then stdoutRun args o
    else if a0 = "stream" then streamRun args o
    else if a0 = "stdin" then stdinRun args o
    else if a0 = "term-size" then termSizeRun args o
    else if a0 = "resize" then resizeRun args o
    else if a0 = "attach" then attachRun args o
    else if a0 = "version" then versionRun o
    else if a0 = "kill-server" then killServerRun socketExists o
    else if a0 = "--server" then serverRun o
    else
      { exitCode := some 1,
        stderrLines := ["Unknown command: " ++ a0,
                        "Run 'terminalcp' without arguments to see help"] }

/-! ## Specification-side view of the start-argument scan

The claims about `start` speak of the arguments "not part of a `--cwd`
pair".  `nonCwdScan` extracts, by one left-to-right pass, the list of
plain (non-pair) arguments and the working directory of the last
`--cwd` pair; `none` when a trailing `--cwd` lacks its value. -/

/-- Merge of two working-directory candidates: the right (later) one
wins when present. -/
def mergeCwd : Option String → Option String → Option String
  | c0, none => c0
  | _, some c => some c

/-- One pass over the `start` arguments: drops every `--cwd` pair,
returns the remaining arguments in order and the last pair's value;
`none` when a final `--cwd` has no following value. -/
def nonCwdScan : List String → Option (List String × Option String)
  | [] => some ([], none)
  | a :: rest =>
    if a = "--cwd" then
      match rest with
      | [] => none
      | v :: rest2 =>
        match nonCwdScan rest2 with
        | none => none
        | some (plain, cw) => some (plain, mergeCwd (some v) cw)
    else
      match nonCwdScan rest with
      | none => none
      | some (plain, cw) => some (a :: plain, cw)

/-- The exit-code discipline of one client invocation (claim C4, as
amended): the recorded exit code is only ever 0 or 1 (or absent);
a rejected awaited operation with a request sent exits 1, except
`list`/`ls` meeting the missing-daemon rejection, which exits 0
(treated as idle); a resolved one-shot request exits 0, except `attach`
which stays attached (no exit recorded in `index.ts`); a branch that
sent no request and is not the help or a server mode — a malformed
invocation or an unknown command — exits exactly 1; the empty vector
prints help and exits 0; and `--mcp`/`--server` send no request, keep
running on success and exit 1 on a startup failure. -/
def GoodRun (args : List String) (o : ReqOutcome) (r : ClientRun) : Prop :=
  (r.exitCode = none ∨ r.exitCode = some 0 ∨ r.exitCode = some 1) ∧
  (∀ m, o = .fail m → r.request.isSome = true →
    r.exitCode = some 1 ∨
      ((args.head? = some "ls" ∨ args.head? = some "list") ∧ m = noServerMsg ∧
        r.exitCode = some 0)) ∧
  (∀ pl, o = .ok pl → r.request.isSome = true →
    r.exitCode = some 0 ∨ (args.head? = some "attach" ∧ r.exitCode = none)) ∧
  (r.request = none → args ≠ [] → args.head? ≠ some "--mcp" →
    args.head? ≠ some "--server" → r.exitCode = some 1) ∧
  (args = [] → r.exitCode = some 0) ∧
  ((args.head? = some "--mcp" ∨ args.head? = some "--server") →
    r.request = none ∧
    (∀ pl, o = .ok pl → r.exitCode = none) ∧
    (∀ m, o = .fail m → r.exitCode = some 1))

end Terminalcp

namespace Terminalcp

/-! ## Helper lemmas -/

theorem mergeCwd_absorb (c0 v : Option String) (c : String) :
    mergeCwd c0 (mergeCwd (some c) v) = mergeCwd (some c) v := by
  cases v <;> rfl

theorem clientStartLoop_eq_startLoop (l : List String) (sid cwd : Option String)
    (acc : List String) : clientStartLoop l sid cwd acc = startLoop l sid cwd acc := by
  induction l, sid, cwd, acc using clientStartLoop.induct with
  | case1 sid cwd acc => rfl
  | case2 sid cwd acc => rfl
  | case3 sid cwd acc v rest2 ih => simpa [clientStartLoop, startLoop] using ih
  | case4 a rest sid cwd acc ha hf ih =>
    rw [clientStartLoop.eq_def, startLoop.eq_def]
    simp [ha, hf, ih]
  | case5 a rest sid cwd acc ha hf ih =>
    rw [clientStartLoop.eq_def, startLoop.eq_def]
    simp [ha, hf, ih]

theorem setFlag_lookup_self (l : List (String × FlagVal)) (k : String) (v : FlagVal) :
    (setFlag l k v).lookup k = some v := by
  induction l with
  | nil => simp [setFlag, List.lookup]
  | cons hd tl ih =>
    obtain ⟨k0, v0⟩ := hd
    by_cases hk : k0 = k
    · subst hk; simp [setFlag, List.lookup]
    · have hkk : (k == k0) = false := beq_eq_false_iff_ne.mpr fun h => hk h.symm
      simp [setFlag, hk, List.lookup, hkk, ih]

theorem setFlag_lookup_ne (l : List (String × FlagVal)) (k k2 : String) (v : FlagVal)
    (hne : k2 ≠ k) : (setFlag l k v).lookup k2 = l.lookup k2 := by
  induction l with
  | nil => simp [setFlag, List.lookup, beq_eq_false_iff_ne.mpr hne]
  | cons hd tl ih =>
    obtain ⟨k0, v0⟩ := hd
    by_cases hk : k0 = k
    · subst hk
      simp [setFlag, List.lookup, beq_eq_false_iff_ne.mpr hne]
    · simp [setFlag, hk, List.lookup, ih]

theorem streamFlagLoop_sinceLast (t : List String) :
    ∀ fl, ((streamFlagLoop t fl).lookup "sinceLast").isSome =
      ((fl.lookup "sinceLast").isSome || t.contains "--since-last") := by
  induction t with
  | nil => intro fl; simp [streamFlagLoop, List.contains]
  | cons a t ih =>
    intro fl
    by_cases h1 : a = "--since-last"
    · subst h1
      simp [streamFlagLoop, ih, setFlag_lookup_self, List.contains_cons]
    · by_cases h2 : a = "--with-ansi"
      · subst h2
        simp [streamFlagLoop, ih, setFlag_lookup_ne fl "withAnsi" "sinceLast" (.bool true) (by decide),
          List.contains_cons]
      · have h1n : ¬("--since-last" = a) := fun h => h1 h.symm
        simp [streamFlagLoop, h1, h2, ih, List.contains_cons, h1n]

theorem streamFlagLoop_withAnsi (t : List String) :
    ∀ fl, ((streamFlagLoop t fl).lookup "withAnsi").isSome =
      ((fl.lookup "withAnsi").isSome || t.contains "--with-ansi") := by
  induction t with
  | nil => intro fl; simp [streamFlagLoop, List.contains]
  | cons a t ih =>
    intro fl
    by_cases h1 : a = "--since-last"
    · subst h1
      simp [streamFlagLoop, ih, setFlag_lookup_ne fl "sinceLast" "withAnsi" (.bool true) (by decide),
        List.contains_cons]
    · by_cases h2 : a = "--with-ansi"
      · subst h2
        simp [streamFlagLoop, ih, setFlag_lookup_self, List.contains_cons]
      · have h2n : ¬("--with-ansi" = a) := fun h => h2 h.symm
        simp [streamFlagLoop, h1, h2, ih, List.contains_cons, h2n]

theorem optFalsy_some_false (s : String) (hs : s ≠ "") : optFalsy (some s) = false := by
  simp [optFalsy, strFalsy, hs]

theorem startLoop_some (s : String) (hs : s ≠ "") (l : List String) :
    ∀ cwd0 acc, startLoop l (some s) cwd0 acc =
      (match nonCwdScan l with
       | none => StartScan.cwdErr
       | some (plain, cw) => .ok (some s) (mergeCwd cwd0 cw) (acc ++ plain)) := by
  induction l using nonCwdScan.induct with
  | case1 => intro cwd0 acc; simp [startLoop, nonCwdScan, mergeCwd]
  | case2 => intro cwd0 acc; rfl
  | case3 v rest2 hnone ih =>
    intro cwd0 acc
    simp [startLoop, nonCwdScan, hnone, ih]
  | case4 v rest2 plain cw hsome ih =>
    intro cwd0 acc
    simp [startLoop, nonCwdScan, hsome, ih, mergeCwd_absorb]
  | case5 a rest hna hnone ih =>
    intro cwd0 acc
    rw [startLoop.eq_def, nonCwdScan.eq_def]
    simp [hna, optFalsy_some_false s hs, hnone, ih]
  | case6 a rest hna plain cw hsome ih =>
    intro cwd0 acc
    rw [startLoop.eq_def, nonCwdScan.eq_def]
    simp [hna, optFalsy_some_false s hs, hsome, ih]

theorem startLoop_none (l : List String) :
    ∀ cwd0, (∀ a ∈ l, a ≠ "") → startLoop l none cwd0 [] =
      (match nonCwdScan l with
       | none => StartScan.cwdErr
       | some ([], cw) => .ok none (mergeCwd cwd0 cw) []
       | some (x :: plain, cw) => .ok (some x) (mergeCwd cwd0 cw) plain) := by
  induction l using nonCwdScan.induct with
  | case1 => intro cwd0 hall; rfl
  | case2 => intro cwd0 hall; rfl
  | case3 v rest2 hnone ih =>
    intro cwd0 hall
    have hall2 : ∀ a ∈ rest2, a ≠ "" := fun a ha => hall a (by simp [ha])
    simp [startLoop, nonCwdScan, hnone, ih (some v) hall2]
  | case4 v rest2 plain cw hsome ih =>
    intro cwd0 hall
    have hall2 : ∀ a ∈ rest2, a ≠ "" := fun a ha => hall a (by simp [ha])
    have := ih (some v) hall2
    cases plain with
    | nil =>
      simp [startLoop, nonCwdScan, hsome, mergeCwd_absorb] at this ⊢
      simp [this, hsome]
    | cons x plain2 =>
      simp [startLoop, nonCwdScan, hsome, mergeCwd_absorb] at this ⊢
      simp [this, hsome]
  | case5 a rest hna hnone ih =>
    intro cwd0 hall
    have ha : a ≠ "" := hall a (by simp)
    rw [startLoop.eq_def, nonCwdScan.eq_def]
    simp [hna, optFalsy, startLoop_some a ha rest, hnone]
  | case6 a rest hna plain cw hsome ih =>
    intro cwd0 hall
    have ha : a ≠ "" := hall a (by simp)
    rw [startLoop.eq_def, nonCwdScan.eq_def]
    simp [hna, optFalsy, startLoop_some a ha rest, hsome]

theorem nonCwdScan_cwd_mem (l : List String) :
    ∀ plain c, nonCwdScan l = some (plain, some c) → c ∈ l := by
  induction l using nonCwdScan.induct with
  | case1 => intro plain c h; simp [nonCwdScan] at h
  | case2 => intro plain c h; simp [nonCwdScan] at h
  | case3 v rest2 hnone ih =>
    intro plain c h
    simp [nonCwdScan, hnone] at h
  | case4 v rest2 plain2 cw hsome ih =>
    intro plain c h
    simp [nonCwdScan, hsome] at h
    obtain ⟨h1, h2⟩ := h
    cases cw with
    | none =>
      simp [mergeCwd] at h2
      simp [h2]
    | some c2 =>
      simp [mergeCwd] at h2
      have := ih plain2 c2 hsome
      subst h2
      simp [this]
  | case5 a rest hna hnone ih =>
    intro plain c h
    rw [nonCwdScan.eq_def] at h
    simp [hna, hnone] at h
  | case6 a rest hna plain2 cw hsome ih =>
    intro plain c h
    rw [nonCwdScan.eq_def] at h
    simp [hna, hsome] at h
    obtain ⟨h1, h2⟩ := h
    subst h2
    have := ih plain2 c hsome
    simp [this]

theorem parseStartCommand_err_usage (args : List String) (pe : ParseError)
    (h : parseStartCommand args = .err pe) : pe.usage.isSome = true := by
  unfold parseStartCommand at h
  split at h
  · cases h; rfl
  · split at h
    · cases h; rfl
    · split at h
      · cases h; rfl
      · simp at h

theorem parseAttachCommand_err_usage (args : List String) (pe : ParseError)
    (h : parseAttachCommand args = .err pe) : pe.usage.isSome = true := by
  unfold parseAttachCommand at h
  split at h
  · cases h; rfl
  · simp at h

theorem parseStdoutCommand_err_usage (args : List String) (pe : ParseError)
    (h : parseStdoutCommand args = .err pe) : pe.usage.isSome = true := by
  unfold parseStdoutCommand at h
  split at h
  · cases h; rfl
  · simp at h

theorem parseStreamCommand_err_usage (args : List String) (pe : ParseError)
    (h : parseStreamCommand args = .err pe) : pe.usage.isSome = true := by
  unfold parseStreamCommand at h
  split at h
  · cases h; rfl
  · simp at h

theorem parseStdinCommand_err_usage (args : List String) (pe : ParseError)
    (h : parseStdinCommand args = .err pe) : pe.usage.isSome = true := by
  unfold parseStdinCommand at h
  split at h
  · simp at h
  · cases h; rfl

theorem parseResizeCommand_err_usage (args : List String) (pe : ParseError)
    (h : parseResizeCommand args = .err pe) : pe.usage.isSome = true := by
  unfold parseResizeCommand at h
  split at h
  · dsimp only at h
    split at h
    · cases h; rfl
    · simp at h
  · cases h; rfl

theorem parseTermSizeCommand_err_usage (args : List String) (pe : ParseError)
    (h : parseTermSizeCommand args = .err pe) : pe.usage.isSome = true := by
  unfold parseTermSizeCommand at h
  split at h
  · cases h; rfl
  · simp at h

theorem parseStopCommand_no_err (args : List String) (pe : ParseError)
    (h : parseStopCommand args = .err pe) : False := by
  simp [parseStopCommand] at h

/-! ## Shape lemmas for the client branches -/

theorem listRun_noServer :
    listRun noServer =
      { request := some { action := "list" }, exitCode := some 0,
        stdoutLines := ["No active sessions"] } := rfl

theorem listRun_shape (o : ReqOutcome) :
    (listRun o).request = some { action := "list" } ∧
    (listRun o).exitCode = some (match o with
      | .ok _ => 0
      | .fail m => if m = noServerMsg then 0 else 1) := by
  cases o with
  | ok p =>
    unfold listRun
    dsimp only
    split <;> exact ⟨rfl, rfl⟩
  | fail m =>
    unfold listRun
    dsimp only
    split <;> exact ⟨rfl, rfl⟩

theorem startRun_shape (args : List String) (o : ReqOutcome) :
    ((startRun args o).request = none ∧ (startRun args o).exitCode = some 1) ∨
    ((startRun args o).request.isSome = true ∧
      (startRun args o).exitCode = some (match o with | .ok _ => 0 | .fail _ => 1)) := by
  unfold startRun
  split
  · exact Or.inl ⟨rfl, rfl⟩
  · split
    · exact Or.inl ⟨rfl, rfl⟩
    · cases o <;> exact Or.inr ⟨rfl, rfl⟩

theorem stopRun_shape (args : List String) (o : ReqOutcome) :
    (stopRun args o).request.isSome = true ∧
    (stopRun args o).exitCode = some (match o with | .ok _ => 0 | .fail _ => 1) := by
  unfold stopRun
  cases o <;> exact ⟨rfl, rfl⟩

theorem stdoutRun_shape (args : List String) (o : ReqOutcome) :
    ((stdoutRun args o).request = none ∧ (stdoutRun args o).exitCode = some 1) ∨
    ((stdoutRun args o).request.isSome = true ∧
      (stdoutRun args o).exitCode = some (match o with | .ok _ => 0 | .fail _ => 1)) := by
  unfold stdoutRun
  split
  · exact Or.inl ⟨rfl, rfl⟩
  · split
    · exact Or.inl ⟨rfl, rfl⟩
    · cases o <;> exact Or.inr ⟨rfl, rfl⟩

theorem streamRun_shape (args : List String) (o : ReqOutcome) :
    ((streamRun args o).request = none ∧ (streamRun args o).exitCode = some 1) ∨
    ((streamRun args o).request.isSome = true ∧
      (streamRun args o).exitCode = some (match o with | .ok _ => 0 | .fail _ => 1)) := by
  unfold streamRun
  split
  · exact Or.inl ⟨rfl, rfl⟩
  · split
    · exact Or.inl ⟨rfl, rfl⟩
    · cases o <;> exact Or.inr ⟨rfl, rfl⟩

theorem stdinRun_shape (args : List String) (o : ReqOutcome) :
    ((stdinRun args o).request = none ∧ (stdinRun args o).exitCode = some 1) ∨
    ((stdinRun args o).request.isSome = true ∧
      (stdinRun args o).exitCode = some (match o with | .ok _ => 0 | .fail _ => 1)) := by
  unfold stdinRun
  split
  · exact Or.inl ⟨rfl, rfl⟩
  · cases o <;> exact Or.inr ⟨rfl, rfl⟩

theorem termSizeRun_shape (args : List String) (o : ReqOutcome) :
    ((termSizeRun args o).request = none ∧ (termSizeRun args o).exitCode = some 1) ∨
    ((termSizeRun args o).request.isSome = true ∧
      (termSizeRun args o).exitCode = some (match o with | .ok _ => 0 | .fail _ => 1)) := by
  unfold termSizeRun
  split
  · exact Or.inl ⟨rfl, rfl⟩
  · split
    · exact Or.inl ⟨rfl, rfl⟩
    · cases o <;> exact Or.inr ⟨rfl, rfl⟩

theorem resizeRun_shape (args : List String) (o : ReqOutcome) :
    ((resizeRun args o).request = none ∧ (resizeRun args o).exitCode = some 1) ∨
    ((resizeRun args o).request.isSome = true ∧
      (resizeRun args o).exitCode = some (match o with | .ok _ => 0 | .fail _ => 1)) := by
  unfold resizeRun
  split
  · cases o <;> exact Or.inr ⟨rfl, rfl⟩
  · exact Or.inl ⟨rfl, rfl⟩

theorem attachRun_shape (args : List String) (o : ReqOutcome) :
    ((attachRun args o).request = none ∧ (attachRun args o).exitCode = some 1) ∨
    ((attachRun args o).request.isSome = true ∧
      (attachRun args o).exitCode = (match o with | .ok _ => none | .fail _ => some 1)) := by
  unfold attachRun
  split
  · exact Or.inl ⟨rfl, rfl⟩
  · split
    · exact Or.inl ⟨rfl, rfl⟩
    · cases o <;> exact Or.inr ⟨rfl, rfl⟩

theorem versionRun_shape (o : ReqOutcome) :
    (versionRun o).request.isSome = true ∧
    (versionRun o).exitCode = some (match o with | .ok _ => 0 | .fail _ => 1) := by
  unfold versionRun
  cases o <;> exact ⟨rfl, rfl⟩

theorem killServerRun_shape (b : Bool) (o : ReqOutcome) :
    ((killServerRun b o).request = none ∧ (killServerRun b o).exitCode = some 1) ∨
    ((killServerRun b o).request.isSome = true ∧
      (killServerRun b o).exitCode = some (match o with | .ok _ => 0 | .fail _ => 1)) := by
  unfold killServerRun
  split
  · exact Or.inl ⟨rfl, rfl⟩
  · cases o <;> exact Or.inr ⟨rfl, rfl⟩

theorem serverRun_shape (o : ReqOutcome) :
    (serverRun o).request = none ∧
    (serverRun o).exitCode = (match o with | .ok _ => none | .fail _ => some 1) := by
  cases o <;> exact ⟨rfl, rfl⟩

theorem mcpRun_shape (o : ReqOutcome) :
    (mcpRun o).request = none ∧
    (mcpRun o).exitCode = (match o with | .ok _ => none | .fail _ => some 1) := by
  cases o <;> exact ⟨rfl, rfl⟩

theorem mergeCwd_none_left (cw : Option String) : mergeCwd none cw = cw := by
  cases cw <;> rfl

theorem goodRun_of_shape {args : List String} {o : ReqOutcome} {r : ClientRun}
    (hne : args ≠ []) (hm : args.head? ≠ some "--mcp")
    (hs : args.head? ≠ some "--server")
    (h : (r.request = none ∧ r.exitCode = some 1) ∨
         (r.request.isSome = true ∧
           r.exitCode = some (match o with | .ok _ => 0 | .fail _ => 1))) :
    GoodRun args o r := by
  rcases h with ⟨h1, h2⟩ | ⟨h1, h2⟩
  · refine ⟨Or.inr (Or.inr h2), ?_, ?_, fun _ _ _ _ => h2,
      fun hx => absurd hx hne, ?_⟩
    · intro m hmo hsome; rw [h1] at hsome; simp at hsome
    · intro pl hpl hsome; rw [h1] at hsome; simp at hsome
    · rintro (hx | hx)
      · exact absurd hx hm
      · exact absurd hx hs
  · cases o with
    | ok pl =>
      have h2o : r.exitCode = some 0 := h2
      refine ⟨Or.inr (Or.inl h2o), ?_, ?_, ?_, fun hx => absurd hx hne, ?_⟩
      · intro m hmo; simp at hmo
      · intro pl2 hpl hsome; exact Or.inl h2o
      · intro hn; rw [hn] at h1; simp at h1
      · rintro (hx | hx)
        · exact absurd hx hm
        · exact absurd hx hs
    | fail m =>
      have h2f : r.exitCode = some 1 := h2
      refine ⟨Or.inr (Or.inr h2f), ?_, ?_, ?_, fun hx => absurd hx hne, ?_⟩
      · intro m2 hmo hsome; exact Or.inl h2f
      · intro pl hpl; simp at hpl
      · intro hn; rw [hn] at h1; simp at h1
      · rintro (hx | hx)
        · exact absurd hx hm
        · exact absurd hx hs

theorem goodRun_noreq {args : List String} {o : ReqOutcome} {r : ClientRun}
    (hhead : args.head? = some "--mcp" ∨ args.head? = some "--server")
    (h1 : r.request = none)
    (h2 : r.exitCode = (match o with | .ok _ => none | .fail _ => some 1)) :
    GoodRun args o r := by
  have hne : args ≠ [] := by
    intro hx
    subst hx
    rcases hhead with hh | hh <;> simp at hh
  have h4 : r.request = none → args ≠ [] → args.head? ≠ some "--mcp" →
      args.head? ≠ some "--server" → r.exitCode = some 1 := by
    intro _ _ hmx hsx
    rcases hhead with hh | hh
    · exact absurd hh hmx
    · exact absurd hh hsx
  cases o with
  | ok pl =>
    have h2o : r.exitCode = none := h2
    refine ⟨Or.inl h2o, ?_, ?_, h4, fun hx => absurd hx hne,
      fun _ => ⟨h1, ?_, ?_⟩⟩
    · intro m hmo; simp at hmo
    · intro pl2 hpl hsome; rw [h1] at hsome; simp at hsome
    · intro pl2 hpl; exact h2o
    · intro m hmo; simp at hmo
  | fail m =>
    have h2f : r.exitCode = some 1 := h2
    refine ⟨Or.inr (Or.inr h2f), ?_, ?_, h4, fun hx => absurd hx hne,
      fun _ => ⟨h1, ?_, ?_⟩⟩
    · intro m2 hmo hsome; rw [h1] at hsome; simp at hsome
    · intro pl hpl; simp at hpl
    · intro pl hpl; simp at hpl
    · intro m2 hmo; exact h2f

theorem goodRun_exit1 {args : List String} {o : ReqOutcome} {r : ClientRun}
    (hne : args ≠ []) (hm : args.head? ≠ some "--mcp")
    (hs : args.head? ≠ some "--server")
    (h1 : r.request = none) (h2 : r.exitCode = some 1) : GoodRun args o r := by
  refine ⟨Or.inr (Or.inr h2), ?_, ?_, fun _ _ _ _ => h2,
    fun hx => absurd hx hne, ?_⟩
  · intro m hmo hsome; rw [h1] at hsome; simp at hsome
  · intro pl hpl hsome; rw [h1] at hsome; simp at hsome
  · rintro (hx | hx)
    · exact absurd hx hm
    · exact absurd hx hs

theorem goodRun_attach {args : List String} {o : ReqOutcome} {r : ClientRun}
    (hhead : args.head? = some "attach")
    (h : (r.request = none ∧ r.exitCode = some 1) ∨
         (r.request.isSome = true ∧
           r.exitCode = (match o with | .ok _ => none | .fail _ => some 1))) :
    GoodRun args o r := by
  have hne : args ≠ [] := by intro hx; subst hx; simp at hhead
  have hm : args.head? ≠ some "--mcp" := by rw [hhead]; simp
  have hs : args.head? ≠ some "--server" := by rw [hhead]; simp
  rcases h with ⟨h1, h2⟩ | ⟨h1, h2⟩
  · exact goodRun_exit1 hne hm hs h1 h2
  · cases o with
    | ok pl =>
      have h2o : r.exitCode = none := h2
      refine ⟨Or.inl h2o, ?_, ?_, ?_, fun hx => absurd hx hne, ?_⟩
      · intro m hmo; simp at hmo
      · intro pl2 hpl hsome; exact Or.inr ⟨hhead, h2o⟩
      · intro hn; rw [hn] at h1; simp at h1
      · rintro (hx | hx)
        · exact absurd hx hm
        · exact absurd hx hs
    | fail m =>
      have h2f : r.exitCode = some 1 := h2
      refine ⟨Or.inr (Or.inr h2f), ?_, ?_, ?_, fun hx => absurd hx hne, ?_⟩
      · intro m2 hmo hsome; exact Or.inl h2f
      · intro pl hpl; simp at hpl
      · intro hn; rw [hn] at h1; simp at h1
      · rintro (hx | hx)
        · exact absurd hx hm
        · exact absurd hx hs

theorem goodRun_listRun (args : List String) (o : ReqOutcome)
    (hhead : args.head? = some "ls" ∨ args.head? = some "list") :
    GoodRun args o (listRun o) := by
  obtain ⟨h1, h2⟩ := listRun_shape o
  have hne : args ≠ [] := by
    intro hx
    subst hx
    rcases hhead with hh | hh <;> simp at hh
  have hm : args.head? ≠ some "--mcp" := by
    rcases hhead with hh | hh <;> rw [hh] <;> simp
  have hs : args.head? ≠ some "--server" := by
    rcases hhead with hh | hh <;> rw [hh] <;> simp
  have h4 : (listRun o).request = none → args ≠ [] → args.head? ≠ some "--mcp" →
      args.head? ≠ some "--server" → (listRun o).exitCode = some 1 := by
    intro hn
    rw [hn] at h1
    simp at h1
  cases o with
  | ok pl =>
    have h2o : (listRun (ReqOutcome.ok pl)).exitCode = some 0 := h2
    refine ⟨Or.inr (Or.inl h2o), ?_, ?_, h4, fun hx => absurd hx hne, ?_⟩
    · intro m hmo; simp at hmo
    · intro pl2 hpl hsome; exact Or.inl h2o
    · rintro (hx | hx)
      · exact absurd hx hm
      · exact absurd hx hs
  | fail m =>
    by_cases hmo : m = noServerMsg
    · have h0 : (listRun (ReqOutcome.fail m)).exitCode = some 0 := by rw [h2]; simp [hmo]
      refine ⟨Or.inr (Or.inl h0), ?_, ?_, h4, fun hx => absurd hx hne, ?_⟩
      · intro m2 hm2 hsome
        have hmm : m = m2 := by injection hm2
        exact Or.inr ⟨hhead, hmm ▸ hmo, h0⟩
      · intro pl hpl; simp at hpl
      · rintro (hx | hx)
        · exact absurd hx hm
        · exact absurd hx hs
    · have h0 : (listRun (ReqOutcome.fail m)).exitCode = some 1 := by rw [h2]; simp [hmo]
      refine ⟨Or.inr (Or.inr h0), ?_, ?_, h4, fun hx => absurd hx hne, ?_⟩
      · intro m2 hm2 hsome; exact Or.inl h0
      · intro pl hpl; simp at hpl
      · rintro (hx | hx)
        · exact absurd hx hm
        · exact absurd hx hs

/-! ## The claims -/

/-- C4 counterexample: three CLI invocations whose awaited operation
succeeds record no `process.exit` at all in `index.ts`, so the client
does not exit with status 0 on success: `--server` and `--mcp` keep
running as daemons, and a resolved `attach` stays attached (its
eventual exit lives in `AttachClient`, outside the verified sources). -/
theorem claim4_success_without_exit_counterexample :
    (clientRun true ["--server"] (.ok "")).exitCode = none ∧
    (clientRun true ["--mcp"] (.ok "")).exitCode = none ∧
    (clientRun true ["attach", "s1"] (.ok "attached")).exitCode = none ∧
    (none : Option Nat) ≠ some 0 := by
  exact ⟨rfl, rfl, rfl, by decide⟩

/-- C4 (amended): every exit code the client produces is 0 on a success
(a resolved one-shot request, the help text on an empty vector, or
`list` treating a missing daemon as idle) and 1 on any failure
(malformed flags and unknown commands exit 1 before any request; a
rejected request, a failed server or MCP startup, and a missing socket
on `kill-server` exit 1) — except that `attach`, `--mcp` and
`--server` keep running on success instead of exiting 0.  Formally,
every dispatch of `clientRun` satisfies the `GoodRun` discipline. -/
theorem claim4_client_exit_codes (b : Bool) (args : List String) (o : ReqOutcome) :
    GoodRun args o (clientRun b args o) := by
  cases args with
  | nil =>
    refine ⟨Or.inr (Or.inl rfl), ?_, ?_, ?_, fun _ => rfl, ?_⟩
    · intro m hm hsome; simp [clientRun] at hsome
    · intro pl hpl hsome; simp [clientRun] at hsome
    · intro _ hne _ _; exact absurd rfl hne
    · rintro (hx | hx) <;> simp at hx
  | cons a0 rest =>
    by_cases h1 : a0 = "--mcp"
    · subst h1
      exact goodRun_noreq (Or.inl rfl) (mcpRun_shape o).1 (mcpRun_shape o).2
    · by_cases h2 : a0 = "ls" ∨ a0 = "list"
      · have heq : clientRun b (a0 :: rest) o = listRun o := by
          simp [clientRun, h1, h2]
        rw [heq]
        exact goodRun_listRun (a0 :: rest) o (by rcases h2 with h | h <;> subst h <;> simp)
      · by_cases h3 : a0 = "start"
        · subst h3
          exact goodRun_of_shape (by simp) (by simp) (by simp) (startRun_shape ("start" :: rest) o)
        · by_cases h4 : a0 = "stop"
          · subst h4
            exact goodRun_of_shape (by simp) (by simp) (by simp) (Or.inr (stopRun_shape ("stop" :: rest) o))
          · by_cases h5 : a0 = "stdout"
            · subst h5
              exact goodRun_of_shape (by simp) (by simp) (by simp) (stdoutRun_shape ("stdout" :: rest) o)
            · by_cases h6 : a0 = "stream"
              · subst h6
                exact goodRun_of_shape (by simp) (by simp) (by simp) (streamRun_shape ("stream" :: rest) o)
              · by_cases h7 : a0 = "stdin"
                · subst h7
                  exact goodRun_of_shape (by simp) (by simp) (by simp) (stdinRun_shape ("stdin" :: rest) o)
                · by_cases h8 : a0 = "term-size"
                  · subst h8
                    exact goodRun_of_shape (by simp) (by simp) (by simp) (termSizeRun_shape ("term-size" :: rest) o)
                  · by_cases h9 : a0 = "resize"
                    · subst h9
                      exact goodRun_of_shape (by simp) (by simp) (by simp) (resizeRun_shape ("resize" :: rest) o)
                    · by_cases h10 : a0 = "attach"
                      · subst h10
                        exact goodRun_attach rfl (attachRun_shape ("attach" :: rest) o)
                      · by_cases h11 : a0 = "version"
                        · subst h11
                          exact goodRun_of_shape (by simp) (by simp) (by simp) (Or.inr (versionRun_shape o))
                        · by_cases h12 : a0 = "kill-server"
                          · subst h12
                            exact goodRun_of_shape (by simp) (by simp) (by simp) (killServerRun_shape b o)
                          · by_cases h13 : a0 = "--server"
                            · subst h13
                              exact goodRun_noreq (Or.inr rfl) (serverRun_shape o).1
                                (serverRun_shape o).2
                            · have heq : clientRun b (a0 :: rest) o =
                                  { exitCode := some 1,
                                    stderrLines := ["Unknown command: " ++ a0,
                                      "Run 'terminalcp' without arguments to see help"] } := by
                                simp [clientRun, h1, h2, h3, h4, h5, h6, h7, h8, h9, h10,
                                  h11, h12, h13]
                              rw [heq]
                              refine goodRun_exit1 (by simp) ?_ ?_ rfl rfl
                              · intro hh
                                exact h1 (Option.some.inj (by simpa using hh))
                              · intro hh
                                exact h13 (Option.some.inj (by simpa using hh))

/-- C3: running `list` (or `ls`) against a missing daemon prints
`No active sessions` and exits 0 (idle, not failure); every other
command against a missing daemon exits 1. -/
theorem claim3_noserver_handling (args : List String) (h : String)
    (hhead : args.head? = some h) :
    ((h = "ls" ∨ h = "list") →
      (clientRun false args noServer).exitCode = some 0 ∧
      "No active sessions" ∈ (clientRun false args noServer).stdoutLines) ∧
    (¬(h = "ls" ∨ h = "list") →
      (clientRun false args noServer).exitCode = some 1) := by
  cases args with
  | nil => simp at hhead
  | cons a0 rest =>
    have ha0 : a0 = h := by simpa using hhead
    subst ha0
    constructor
    · intro hl
      have heq : clientRun false (a0 :: rest) noServer = listRun noServer := by
        rcases hl with hx | hx <;> subst hx <;> simp [clientRun]
      rw [heq, listRun_noServer]
      exact ⟨rfl, by simp⟩
    · intro hnl
      have hn1 : ¬a0 = "ls" := fun hh => hnl (Or.inl hh)
      have hn2 : ¬a0 = "list" := fun hh => hnl (Or.inr hh)
      by_cases h1 : a0 = "--mcp"
      · subst h1; rfl
      · by_cases h3 : a0 = "start"
        · subst h3
          rcases startRun_shape ("start" :: rest) noServer with ⟨_, hx⟩ | ⟨_, hx⟩ <;> exact hx
        · by_cases h4 : a0 = "stop"
          · subst h4
            exact (stopRun_shape ("stop" :: rest) noServer).2
          · by_cases h5 : a0 = "stdout"
            · subst h5
              rcases stdoutRun_shape ("stdout" :: rest) noServer with ⟨_, hx⟩ | ⟨_, hx⟩ <;>
                exact hx
            · by_cases h6 : a0 = "stream"
              · subst h6
                rcases streamRun_shape ("stream" :: rest) noServer with ⟨_, hx⟩ | ⟨_, hx⟩ <;>
                  exact hx
              · by_cases h7 : a0 = "stdin"
                · subst h7
                  rcases stdinRun_shape ("stdin" :: rest) noServer with ⟨_, hx⟩ | ⟨_, hx⟩ <;>
                    exact hx
                · by_cases h8 : a0 = "term-size"
                  · subst h8
                    rcases termSizeRun_shape ("term-size" :: rest) noServer with ⟨_, hx⟩ | ⟨_, hx⟩ <;>
                      exact hx
                  · by_cases h9 : a0 = "resize"
                    · subst h9
                      rcases resizeRun_shape ("resize" :: rest) noServer with ⟨_, hx⟩ | ⟨_, hx⟩ <;>
                        exact hx
                    · by_cases h10 : a0 = "attach"
                      · subst h10
                        rcases attachRun_shape ("attach" :: rest) noServer with ⟨_, hx⟩ | ⟨_, hx⟩ <;>
                          exact hx
                      · by_cases h11 : a0 = "version"
                        · subst h11
                          exact (versionRun_shape noServer).2
                        · by_cases h12 : a0 = "kill-server"
                          · subst h12; rfl
                          · by_cases h13 : a0 = "--server"
                            · subst h13; rfl
                            · have heq : clientRun false (a0 :: rest) noServer =
                                  { exitCode := some 1,
                                    stderrLines := ["Unknown command: " ++ a0,
                                      "Run 'terminalcp' without arguments to see help"] } := by
                                simp [clientRun, h1, hn1, hn2, h3, h4, h5, h6, h7, h8, h9,
                                  h10, h11, h12, h13]
                              rw [heq]

/-- C3 witness: `list` against the missing daemon exits 0 and prints
`No active sessions`, while `version` against it exits 1. -/
theorem claim3_noserver_handling_witness :
    ((clientRun false ["list"] noServer).exitCode = some 0 ∧
      "No active sessions" ∈ (clientRun false ["list"] noServer).stdoutLines) ∧
    (clientRun false ["version"] noServer).exitCode = some 1 :=
  ⟨(claim3_noserver_handling ["list"] "list" rfl).1 (Or.inr rfl),
   (claim3_noserver_handling ["version"] "version" rfl).2 (by decide)⟩

/-- C6: `parseArgs` is total and returns exactly one of the two result
shapes, and `isError` distinguishes them. -/
theorem claim6_parseArgs_total (args : List String) :
    (isError (parseArgs args) = true ∧ ∃ pe, parseArgs args = .err pe) ∨
    (isError (parseArgs args) = false ∧ ∃ p, parseArgs args = .cmd p) := by
  cases h : parseArgs args with
  | cmd p => exact Or.inr ⟨rfl, p, rfl⟩
  | err pe => exact Or.inl ⟨rfl, pe, rfl⟩

/-- C9: `ls` is a perfect alias of `list`: both argument vectors parse
to the same command, `{command := "list", args := {}, flags := {}}`. -/
theorem claim9_ls_alias (rest : List String) :
    parseArgs ("ls" :: rest) = parseArgs ("list" :: rest) ∧
    parseArgs ("ls" :: rest) = .cmd { command := "list", args := [], flags := [] } := by
  exact ⟨rfl, rfl⟩

/-- C2 counterexample: `resize s1 0 40` is not rejected; the parser
returns a well-formed resize command with `cols = 0`, although 0 is not
a positive integer. -/
theorem claim2_zero_cols_counterexample :
    parseArgs ["resize", "s1", "0", "40"] =
      .cmd { command := "resize",
             args := [("sessionId", .str "s1"), ("cols", .num (.num 0)),
                      ("rows", .num (.num 40))],
             flags := [] } ∧
    isError (parseArgs ["resize", "s1", "0", "40"]) = false ∧
    ¬(0 : Int) > 0 := by
  exact ⟨by decide, by decide, by decide⟩

/-- C2 (amended): with three arguments present, `resize` is rejected
exactly when `parseInt` of cols or rows is NaN; any numeric value,
including zero and negatives, yields a well-formed resize command
carrying those values. -/
theorem claim2_resize_validation (s c r : String) (t : List String) :
    parseArgs ("resize" :: s :: c :: r :: t) =
      (if (parseIntJs c).isNaN || (parseIntJs r).isNaN then
        .err { error := "cols and rows must be numbers", usage := some resizeUsage }
      else
        .cmd { command := "resize",
               args := [("sessionId", .str s), ("cols", .num (parseIntJs c)),
                        ("rows", .num (parseIntJs r))],
               flags := [] }) := rfl

/-- C5 counterexample: the empty argument vector is rejected with an
error that carries no usage text. -/
theorem claim5_empty_error_counterexample :
    parseArgs [] = .err { error := "No command provided", usage := none } := rfl

/-- C5 (amended): every malformed argument vector other than the empty
one is rejected with usage text; the parser is a pure function of the
argument vector, so the error exists before any daemon interaction. -/
theorem claim5_errors_have_usage (args : List String) (pe : ParseError)
    (hne : args ≠ []) (h : parseArgs args = .err pe) : pe.usage.isSome = true := by
  cases args with
  | nil => exact absurd rfl hne
  | cons a0 rest =>
    by_cases c1 : a0 = "start"
    · subst c1; exact parseStartCommand_err_usage rest pe h
    · by_cases c2 : a0 = "stop"
      · subst c2
        exact absurd (show parseStopCommand rest = .err pe from h) (by simp [parseStopCommand])
      · by_cases c3 : a0 = "list" ∨ a0 = "ls"
        · rcases c3 with hx | hx <;> subst hx <;>
            exact absurd
              (show ParseResult.cmd { command := "list", args := [], flags := [] } = .err pe from h)
              (by simp)
        · by_cases c4 : a0 = "attach"
          · subst c4; exact parseAttachCommand_err_usage rest pe h
          · by_cases c5 : a0 = "stdout"
            · subst c5; exact parseStdoutCommand_err_usage rest pe h
            · by_cases c6 : a0 = "stream"
              · subst c6; exact parseStreamCommand_err_usage rest pe h
              · by_cases c7 : a0 = "stdin"
                · subst c7; exact parseStdinCommand_err_usage rest pe h
                · by_cases c8 : a0 = "resize"
                  · subst c8; exact parseResizeCommand_err_usage rest pe h
                  · by_cases c9 : a0 = "term-size"
                    · subst c9; exact parseTermSizeCommand_err_usage rest pe h
                    · by_cases c10 : a0 = "version"
                      · subst c10
                        exact absurd
                          (show ParseResult.cmd { command := "version", args := [], flags := [] } = .err pe from h)
                          (by simp)
                      · by_cases c11 : a0 = "kill-server"
                        · subst c11
                          exact absurd
                            (show ParseResult.cmd { command := "kill-server", args := [], flags := [] } = .err pe from h)
                            (by simp)
                        · by_cases c12 : a0 = "--mcp"
                          · subst c12
                            exact absurd
                              (show ParseResult.cmd { command := "mcp", args := [], flags := [] } = .err pe from h)
                              (by simp)
                          · by_cases c13 : a0 = "--server"
                            · subst c13
                              exact absurd
                                (show ParseResult.cmd { command := "server", args := [], flags := [] } = .err pe from h)
                                (by simp)
                            · have hu : parseArgs (a0 :: rest) =
                                  .err { error := "Unknown command: " ++ a0,
                                         usage := some "Run 'terminalcp' without arguments to see help" } := by
                                rw [show parseArgs (a0 :: rest) = dispatchCommand a0 rest from rfl]
                                unfold dispatchCommand
                                simp [c1, c2, c3, c4, c5, c6, c7, c8, c9, c10, c11, c12, c13]
                              have h3 := hu.symm.trans h
                              cases h3
                              rfl

/-- C5 witness: an unknown command is rejected with usage text. -/
theorem claim5_errors_have_usage_witness :
    ({ error := "Unknown command: bogus",
       usage := some "Run 'terminalcp' without arguments to see help" } : ParseError).usage.isSome = true :=
  claim5_errors_have_usage ["bogus"]
    { error := "Unknown command: bogus",
      usage := some "Run 'terminalcp' without arguments to see help" }
    (by decide) (by decide)

/-- C10 counterexample: for `stdout s1 ""` the empty lines argument is
non-numeric (`parseInt` of it is NaN), yet the parsed `lines` field is
`undefined`, not NaN. -/
theorem claim10_empty_lines_counterexample :
    parseArgs ["stdout", "s1", ""] =
      .cmd { command := "stdout",
             args := [("sessionId", .str "s1"), ("lines", .undef)], flags := [] } ∧
    (parseIntJs "").isNaN = true ∧
    ArgVal.undef ≠ ArgVal.num JSNum.nan := by
  exact ⟨by decide, by decide, by decide⟩

/-- C10 (amended): for a non-empty, non-numeric lines argument,
`stdout` parses successfully with `lines = NaN`, while `resize` with
the same non-numeric string is rejected. -/
theorem claim10_stdout_nan_lines (sid larg : String) (t : List String)
    (h1 : larg ≠ "") (h2 : (parseIntJs larg).isNaN = true) :
    parseArgs ("stdout" :: sid :: larg :: t) =
      .cmd { command := "stdout",
             args := [("sessionId", .str sid), ("lines", .num JSNum.nan)],
             flags := [] } ∧
    isError (parseArgs ("resize" :: sid :: larg :: larg :: t)) = true := by
  have hn : parseIntJs larg = .nan := by
    cases hh : parseIntJs larg
    · rfl
    · rw [hh] at h2; simp [JSNum.isNaN] at h2
  constructor
  · simp [parseArgs, dispatchCommand, parseStdoutCommand, h1, hn]
  · simp [parseArgs, dispatchCommand, parseResizeCommand, hn, JSNum.isNaN, isError]

/-- C10 witness: `stdout session1 abc` parses with `lines = NaN` and
`resize session1 abc abc` is rejected. -/
theorem claim10_stdout_nan_lines_witness :
    parseArgs ["stdout", "session1", "abc"] =
      .cmd { command := "stdout",
             args := [("sessionId", .str "session1"), ("lines", .num JSNum.nan)],
             flags := [] } ∧
    isError (parseArgs ["resize", "session1", "abc", "abc"]) = true :=
  claim10_stdout_nan_lines "session1" "abc" [] (by decide) (by decide)

/-- C7: every stream request the client sends carries
`since_last = true` exactly when `--since-last` appears in the argument
vector and `strip_ansi = true` exactly when `--with-ansi` is absent
from it (the daemon strips ANSI codes when `strip_ansi` is set). -/
theorem claim7_stream_request_flags (b : Bool) (args : List String) (o : ReqOutcome)
    (req : Request)
    (hhead : args.head? = some "stream")
    (hreq : (clientRun b args o).request = some req) :
    req.action = "stream" ∧
    req.since_last = some (args.contains "--since-last") ∧
    req.strip_ansi = some (!args.contains "--with-ansi") := by
  cases args with
  | nil => simp at hhead
  | cons a0 rest =>
    have ha0 : a0 = "stream" := by simpa using hhead
    subst ha0
    rw [show clientRun b ("stream" :: rest) o = streamRun ("stream" :: rest) o from rfl] at hreq
    cases rest with
    | nil =>
      rw [show (streamRun ("stream" :: ([] : List String)) o).request = none from rfl] at hreq
      simp at hreq
    | cons sid t =>
      by_cases hs : sid = ""
      · subst hs
        rw [show (streamRun ("stream" :: "" :: t) o).request = none from rfl] at hreq
        simp at hreq
      · have hr : (streamRun ("stream" :: sid :: t) o).request =
            some { action := "stream", id := some sid,
                   since_last := some (("stream" :: sid :: t : List String).contains "--since-last"),
                   strip_ansi := some (!("stream" :: sid :: t : List String).contains "--with-ansi") } := by
          unfold streamRun
          cases o <;> simp [hs]
        rw [hr] at hreq
        have := Option.some.inj hreq
        subst this
        exact ⟨rfl, rfl, rfl⟩

/-- C7 witness: `stream s1 --since-last` yields a request with
`since_last = true` and `strip_ansi = true`. -/
theorem claim7_stream_request_flags_witness :
    ({ action := "stream", id := some "s1", since_last := some true,
       strip_ansi := some true } : Request).action = "stream" ∧
    ({ action := "stream", id := some "s1", since_last := some true,
       strip_ansi := some true } : Request).since_last =
      some (["stream", "s1", "--since-last"].contains "--since-last") ∧
    ({ action := "stream", id := some "s1", since_last := some true,
       strip_ansi := some true } : Request).strip_ansi =
      some (!(List.contains ["stream", "s1", "--since-last"] "--with-ansi")) :=
  claim7_stream_request_flags true ["stream", "s1", "--since-last"] (.ok "out")
    { action := "stream", id := some "s1", since_last := some true, strip_ansi := some true }
    rfl (by decide)

/-- C1 counterexample: on `stream --since-last` both the parser and the
client succeed, the parser records no `sinceLast` flag (the token is
taken as the session id), yet the request carries
`since_last = true` — the request does not match the parse result. -/
theorem claim1_flag_as_id_counterexample :
    parseArgs ["stream", "--since-last"] =
      .cmd { command := "stream", args := [("sessionId", .str "--since-last")], flags := [] } ∧
    (clientRun true ["stream", "--since-last"] (.ok "")).request =
      some { action := "stream", id := some "--since-last",
             since_last := some true, strip_ansi := some true } ∧
    ({ command := "stream", args := [("sessionId", .str "--since-last")],
       flags := [] } : ParsedCommand).hasFlag "sinceLast" = false := by
  exact ⟨by decide, by decide, by decide⟩

/-- C1 (amended): whenever the parser and the client both succeed on
the same argument vector, the request matches the parse result: for
`start`, name/command/cwd equal the parser's sessionId, space-joined
command and cwd flag; for `stream`, `since_last`/`strip_ansi` agree
with the parser's `sinceLast`/`withAnsi` flags provided the session-id
argument is not itself one of the flag literals (the client tests flag
presence over the whole vector, the parser only after the id). -/
theorem claim1_request_matches_parse (b : Bool) (args : List String) (o : ReqOutcome)
    (req : Request) (p : ParsedCommand)
    (hreq : (clientRun b args o).request = some req)
    (hp : parseArgs args = .cmd p) :
    (args.head? = some "start" →
      req.action = "start" ∧ req.name = p.argStrOf "sessionId" ∧
      req.command = p.argStrOf "command" ∧ req.cwd = p.flagStrOf "cwd") ∧
    (args.head? = some "stream" →
      args.get? 1 ≠ some "--since-last" → args.get? 1 ≠ some "--with-ansi" →
      req.action = "stream" ∧ req.id = p.argStrOf "sessionId" ∧
      req.since_last = some (p.hasFlag "sinceLast") ∧
      req.strip_ansi = some (!p.hasFlag "withAnsi")) := by
  constructor
  · intro hhead
    cases args with
    | nil => simp at hhead
    | cons a0 rest =>
      have ha0 : a0 = "start" := by simpa using hhead
      subst ha0
      have hp2 : parseStartCommand rest = .cmd p := hp
      have hreq2 : (startRun ("start" :: rest) o).request = some req := hreq
      unfold startRun at hreq2
      rw [show (("start" :: rest : List String).drop 1) = rest from rfl] at hreq2
      rw [clientStartLoop_eq_startLoop] at hreq2
      unfold parseStartCommand at hp2
      by_cases hlen : rest.length < 2
      · rw [if_pos hlen] at hp2
        exact absurd hp2 (by simp)
      · rw [if_neg hlen] at hp2
        cases hscan : startLoop rest none none [] with
        | cwdErr =>
          rw [hscan] at hp2
          exact absurd hp2 (by simp)
        | ok sid cwd acc =>
          rw [hscan] at hp2 hreq2
          dsimp only at hp2 hreq2
          by_cases hguard : (optFalsy sid || acc.isEmpty) = true
          · rw [if_pos hguard] at hp2
            exact absurd hp2 (by simp)
          · rw [if_neg hguard] at hp2 hreq2
            have hg2 : (optFalsy sid || acc.isEmpty) = false :=
              Bool.eq_false_iff.mpr hguard
            have hof : optFalsy sid = false := by
              cases hx : optFalsy sid
              · rfl
              · rw [hx] at hg2; simp at hg2
            obtain ⟨s, rfl⟩ : ∃ s, sid = some s := by
              cases sid
              · simp [optFalsy] at hof
              · exact ⟨_, rfl⟩
            have hpp := ParseResult.cmd.inj hp2
            subst hpp
            have hreqq : req =
                { action := "start", command := some (String.intercalate " " acc),
                  name := some s, cwd := truthyOpt cwd } := by
              cases o <;> simp at hreq2 <;> exact hreq2.symm
            subst hreqq
            refine ⟨rfl, ?_, ?_, ?_⟩
            · simp [ParsedCommand.argStrOf, List.lookup]
            · simp [ParsedCommand.argStrOf, List.lookup]
            · cases htc : truthyOpt cwd <;>
                simp [ParsedCommand.flagStrOf, List.lookup, htc]
  · intro hhead hno1 hno2
    cases args with
    | nil => simp at hhead
    | cons a0 rest =>
      have ha0 : a0 = "stream" := by simpa using hhead
      subst ha0
      have hp2 : parseStreamCommand rest = .cmd p := hp
      have hreq2 : (streamRun ("stream" :: rest) o).request = some req := hreq
      cases rest with
      | nil => simp [parseStreamCommand] at hp2
      | cons sid t =>
        have hp3 : ParseResult.cmd
            { command := "stream", args := [("sessionId", .str sid)],
              flags := streamFlagLoop t [] } = .cmd p := hp2
        have hpp := ParseResult.cmd.inj hp3
        subst hpp
        have hsid1 : sid ≠ "--since-last" := fun hh => hno1 (by simp [hh])
        have hsid2 : sid ≠ "--with-ansi" := fun hh => hno2 (by simp [hh])
        by_cases hs : sid = ""
        · subst hs
          rw [show (streamRun ("stream" :: "" :: t) o).request = none from rfl] at hreq2
          simp at hreq2
        · have hr : (streamRun ("stream" :: sid :: t) o).request =
              some { action := "stream", id := some sid,
                     since_last := some (("stream" :: sid :: t : List String).contains "--since-last"),
                     strip_ansi := some (!("stream" :: sid :: t : List String).contains "--with-ansi") } := by
            unfold streamRun
            cases o <;> simp [hs]
          rw [hr] at hreq2
          have := Option.some.inj hreq2
          subst this
          have hb1 : ("--since-last" == sid) = false :=
            beq_eq_false_iff_ne.mpr fun hh => hsid1 hh.symm
          have hb2 : ("--with-ansi" == sid) = false :=
            beq_eq_false_iff_ne.mpr fun hh => hsid2 hh.symm
          have hn1 : ¬("--since-last" = sid) := fun hh => hsid1 hh.symm
          have hn2 : ¬("--with-ansi" = sid) := fun hh => hsid2 hh.symm
          have hc1 : (("stream" :: sid :: t : List String).contains "--since-last") =
              t.contains "--since-last" := by
            simp [List.contains_cons, hn1]
          have hc2 : (("stream" :: sid :: t : List String).contains "--with-ansi") =
              t.contains "--with-ansi" := by
            simp [List.contains_cons, hn2]
          have hf1 : ({ command := "stream",
                        args := [("sessionId", ArgVal.str sid)],
                        flags := streamFlagLoop t [] } : ParsedCommand).hasFlag "sinceLast" =
              t.contains "--since-last" := by
            simp [ParsedCommand.hasFlag, streamFlagLoop_sinceLast t [], List.lookup]
          have hf2 : ({ command := "stream",
                        args := [("sessionId", ArgVal.str sid)],
                        flags := streamFlagLoop t [] } : ParsedCommand).hasFlag "withAnsi" =
              t.contains "--with-ansi" := by
            simp [ParsedCommand.hasFlag, streamFlagLoop_withAnsi t [], List.lookup]
          refine ⟨rfl, by simp [ParsedCommand.argStrOf, List.lookup], ?_, ?_⟩
          · rw [hc1, hf1]
          · rw [hc2, hf2]

/-- C1 witness: on `start s1 echo hi` the client request carries the
parser's sessionId as `name`, the space-joined command, and no cwd. -/
theorem claim1_request_matches_parse_witness :
    ({ action := "start", command := some "echo hi", name := some "s1",
       cwd := none } : Request).action = "start" ∧
    ({ action := "start", command := some "echo hi", name := some "s1",
       cwd := none } : Request).name =
      ({ command := "start",
         args := [("sessionId", ArgVal.str "s1"), ("command", ArgVal.str "echo hi")],
         flags := [] } : ParsedCommand).argStrOf "sessionId" ∧
    ({ action := "start", command := some "echo hi", name := some "s1",
       cwd := none } : Request).command =
      ({ command := "start",
         args := [("sessionId", ArgVal.str "s1"), ("command", ArgVal.str "echo hi")],
         flags := [] } : ParsedCommand).argStrOf "command" ∧
    ({ action := "start", command := some "echo hi", name := some "s1",
       cwd := none } : Request).cwd =
      ({ command := "start",
         args := [("sessionId", ArgVal.str "s1"), ("command", ArgVal.str "echo hi")],
         flags := [] } : ParsedCommand).flagStrOf "cwd" :=
  (claim1_request_matches_parse true ["start", "s1", "echo", "hi"] (.ok "s1")
    { action := "start", command := some "echo hi", name := some "s1", cwd := none }
    { command := "start",
      args := [("sessionId", ArgVal.str "s1"), ("command", ArgVal.str "echo hi")],
      flags := [] }
    (by decide) (by decide)).1 rfl

/-- C8 counterexample: on `start "" a b` the first argument not part of
a `--cwd` pair is the empty string, yet the parse succeeds with
sessionId `a` — the falsy empty string is skipped and overwritten, so
the sessionId is not the first non-pair argument. -/
theorem claim8_empty_arg_counterexample :
    parseArgs ["start", "", "a", "b"] =
      .cmd { command := "start",
             args := [("sessionId", .str "a"), ("command", .str "b")], flags := [] } ∧
    nonCwdScan ["", "a", "b"] = some (["", "a", "b"], none) ∧
    ("a" : String) ≠ "" := by
  exact ⟨by decide, by decide, by decide⟩

/-- C8 (amended): provided no argument is the empty string, a
successful `start` parse takes its sessionId from the first argument
not consumed by a `--cwd` pair, its command from the space-join of the
remaining non-pair arguments in order, and its cwd flag from the value
consumed by the last `--cwd` (the argument after each `--cwd` is never
treated as sessionId or command text). -/
theorem claim8_start_cwd_any_position (args : List String) (p : ParsedCommand)
    (hall : ∀ a ∈ args, a ≠ "")
    (hp : parseArgs ("start" :: args) = .cmd p) :
    ∃ x plain cw, nonCwdScan args = some (x :: plain, cw) ∧ plain ≠ [] ∧
      p.argStrOf "sessionId" = some x ∧
      p.argStrOf "command" = some (String.intercalate " " plain) ∧
      p.flagStrOf "cwd" = cw := by
  have hp2 : parseStartCommand args = .cmd p := hp
  unfold parseStartCommand at hp2
  by_cases hlen : args.length < 2
  · rw [if_pos hlen] at hp2
    exact absurd hp2 (by simp)
  · rw [if_neg hlen] at hp2
    have hfold := startLoop_none args none hall
    cases hscan : nonCwdScan args with
    | none =>
      rw [hscan] at hfold
      rw [hfold] at hp2
      exact absurd hp2 (by simp)
    | some pr =>
      obtain ⟨plain0, cw⟩ := pr
      rw [hscan] at hfold
      cases plain0 with
      | nil =>
        rw [hfold] at hp2
        dsimp only at hp2
        rw [if_pos (by simp [optFalsy])] at hp2
        exact absurd hp2 (by simp)
      | cons x plain =>
        rw [hfold] at hp2
        dsimp only at hp2
        by_cases hguard : (optFalsy (some x) || plain.isEmpty) = true
        · rw [if_pos hguard] at hp2
          exact absurd hp2 (by simp)
        · rw [if_neg hguard] at hp2
          have hg2 : (optFalsy (some x) || plain.isEmpty) = false :=
            Bool.eq_false_iff.mpr hguard
          have hpe : plain.isEmpty = false := by
            cases hx : plain.isEmpty
            · rfl
            · rw [hx] at hg2; simp at hg2
          have hpp := ParseResult.cmd.inj hp2
          subst hpp
          refine ⟨x, plain, cw, rfl, by simpa using hpe, ?_, ?_, ?_⟩
          · simp [ParsedCommand.argStrOf, List.lookup]
          · simp [ParsedCommand.argStrOf, List.lookup]
          · rw [mergeCwd_none_left]
            cases hcw : cw with
            | none => simp [ParsedCommand.flagStrOf, truthyOpt, List.lookup]
            | some c =>
              have hcmem : c ∈ args := nonCwdScan_cwd_mem args (x :: plain) c (hcw ▸ hscan)
              have hcne : c ≠ "" := hall c hcmem
              simp [ParsedCommand.flagStrOf, truthyOpt, hcne, List.lookup]

/-- C8 witness: `start s1 echo hi --cwd /tmp` parses with sessionId
`s1`, command `echo hi` and cwd `/tmp`, matching the non-pair scan. -/
theorem claim8_start_cwd_any_position_witness :
    ∃ x plain cw, nonCwdScan ["s1", "echo", "hi", "--cwd", "/tmp"] = some (x :: plain, cw) ∧
      plain ≠ [] ∧
      ({ command := "start",
         args := [("sessionId", ArgVal.str "s1"), ("command", ArgVal.str "echo hi")],
         flags := [("cwd", FlagVal.str "/tmp")] } : ParsedCommand).argStrOf "sessionId" = some x ∧
      ({ command := "start",
         args := [("sessionId", ArgVal.str "s1"), ("command", ArgVal.str "echo hi")],
         flags := [("cwd", FlagVal.str "/tmp")] } : ParsedCommand).argStrOf "command" =
        some (String.intercalate " " plain) ∧
      ({ command := "start",
         args := [("sessionId", ArgVal.str "s1"), ("command", ArgVal.str "echo hi")],
         flags := [("cwd", FlagVal.str "/tmp")] } : ParsedCommand).flagStrOf "cwd" = cw :=
  claim8_start_cwd_any_position ["s1", "echo", "hi", "--cwd", "/tmp"]
    { command := "start",
      args := [("sessionId", ArgVal.str "s1"), ("command", ArgVal.str "echo hi")],
      flags := [("cwd", FlagVal.str "/tmp")] }
    (by decide) (by decide)

end Terminalcp
